import Mathlib

/-!
Verification of the supamart escrow / order-settlement subsystem.

Shallow embedding of the code in `src/routes/orders.js`, `src/routes/sellers.js`,
`src/utils/currency.js` and the mongoose models (Seller wallets, Product,
Transaction).  Monetary amounts are rationals (`ℚ`); JS numbers in the flows at
hand are exact decimals, and the only rounding the code performs is the explicit
`Math.round(x * 100) / 100` in `convertPrice`, embedded below as `round2`.
Stock and quantity are integers (`Int`): nothing in the code restricts a
requested quantity's sign.  Persisted collections are association lists keyed
by `Nat` identifiers; mongoose `findById` is `alookup`, `save` on a fetched
document is `aset`.
-/

namespace Supamart

/-- Currency codes that are first-class on Seller wallets / Transactions
(`enum: ['USD', 'GBP', 'EUR', 'NGN']` in the schemas). -/
inductive Currency where
  | USD
  | GBP
  | EUR
  | NGN
deriving DecidableEq

/-- The process-wide exchange-rate table of `src/utils/currency.js`
(`exchangeRates`), a map from currency code to rate; `none` for an absent
entry. -/
abbrev Rates : Type := Currency → Option ℚ

/-- `Math.round(x * 100) / 100` from `convertPrice`: JS `Math.round` rounds
half toward positive infinity, i.e. `Math.round(y) = ⌊y + 1/2⌋`. -/
def round2 (x : ℚ) : ℚ := ((⌊x * 100 + 1/2⌋ : Int) : ℚ) / 100

/-- `convertPrice(amount, fromCurrency, toCurrency)` from
`src/utils/currency.js` lines 22-31.  The JS guard
`!exchangeRates[from] || !exchangeRates[to]` is falsy both when the entry is
absent and when it is the number `0`, so the passthrough branch covers both. -/
def convertPrice (rates : Rates) (amount : ℚ) (f t : Currency) : ℚ :=
  match rates f, rates t with
  | some rf, some rt =>
      if rf = 0 ∨ rt = 0 then amount
      else round2 (amount / rf * rt)
  | _, _ => amount

/-- One per-currency wallet bucket of a seller
(`wallets.<CUR>` in the Seller schema). -/
structure Wallet where
  balance : ℚ
  pendingBalance : ℚ
  totalEarnings : ℚ
deriving DecidableEq

/-- The escrow-hold wallet update performed per item in CreateOrder
(`orders.js:103`): `pendingBalance += subtotal`. -/
def Wallet.hold (w : Wallet) (x : ℚ) : Wallet :=
  { w with pendingBalance := w.pendingBalance + x }

/-- The escrow-release wallet update performed per item in ConfirmDelivery
(`orders.js:166-168`): `pendingBalance -= subtotal; balance += subtotal;
totalEarnings += subtotal`. -/
def Wallet.release (w : Wallet) (x : ℚ) : Wallet :=
  { w with pendingBalance := w.pendingBalance - x,
           balance := w.balance + x,
           totalEarnings := w.totalEarnings + x }

/-- The four wallet buckets of a seller (Seller schema, `wallets`). -/
structure Wallets where
  usd : Wallet
  gbp : Wallet
  eur : Wallet
  ngn : Wallet
deriving DecidableEq

/-- `seller.wallets[currency]` (read). -/
def Wallets.bucket (w : Wallets) : Currency → Wallet
  | .USD => w.usd
  | .GBP => w.gbp
  | .EUR => w.eur
  | .NGN => w.ngn

/-- `seller.wallets[currency] = v` (write). -/
def Wallets.setBucket (w : Wallets) (c : Currency) (v : Wallet) : Wallets :=
  match c with
  | .USD => { w with usd := v }
  | .GBP => { w with gbp := v }
  | .EUR => { w with eur := v }
  | .NGN => { w with ngn := v }

/-- Seller document, restricted to the state the settlement flows touch. -/
structure Seller where
  wallets : Wallets
deriving DecidableEq

/-- Product document, restricted to the fields the order flow reads/writes
(`price.amount`, `price.currency`, `stock`, `sellerId`, `name`). -/
structure Product where
  sellerId : Nat
  name : String
  priceAmount : ℚ
  priceCurrency : Currency
  stock : Int
deriving DecidableEq

/-- One order line item as built in `orders.js:47-57`. -/
structure OrderItem where
  productId : Nat
  sellerId : Nat
  priceAmount : ℚ
  priceCurrency : Currency
  quantity : Int
  subtotal : ℚ
deriving DecidableEq

inductive EscrowStatus where
  | held
  | released
deriving DecidableEq

inductive OrderStatus where
  | pending
  | completed
deriving DecidableEq

inductive PaymentStatus where
  | pending
  | processing
  | completed
deriving DecidableEq

/-- Order document (Order schema, the second concatenated document of
`src/config/cloudinary.js`, lines 31-160), restricted to the fields the two
routes read/write.  The initial `status` is the schema default `pending`.
The schema's `items[].quantity` carries a `min: 1` validator
(cloudinary.js:65-69), enforced when `Order.create` validates the document;
it is embedded in `createOrder` below. -/
structure Order where
  buyerUserId : Nat
  items : List OrderItem
  shippingAddress : String
  paymentMethod : String
  paymentCurrency : Currency
  paymentAmount : ℚ
  paymentStatus : PaymentStatus
  escrowStatus : EscrowStatus
  status : OrderStatus
  deliveryConfirmed : Bool
  deliveryConfirmedBy : String
deriving DecidableEq

inductive TxnType where
  | sale
  | refund
  | withdrawal
  | escrowHold
  | escrowRelease
deriving DecidableEq

inductive TxnStatus where
  | pending
  | completed
  | failed
deriving DecidableEq

/-- Transaction ledger record (Transaction schema). -/
structure Txn where
  orderId : Nat
  sellerId : Nat
  type : TxnType
  amount : ℚ
  currency : Currency
  status : TxnStatus
deriving DecidableEq

/-- Association list keyed by document id. -/
abbrev AList (α : Type) : Type := List (Nat × α)

/-- `Model.findById(k)`: first entry with the given key. -/
def alookup {α : Type} : AList α → Nat → Option α
  | [], _ => none
  | (k, v) :: rest, k' => if k = k' then some v else alookup rest k'

/-- `doc.save()` for a document previously fetched by id: replace the first
entry with the given key (saving a fetched document never inserts a new id). -/
def aset {α : Type} : AList α → Nat → α → AList α
  | [], _, _ => []
  | (k, v) :: rest, k', v' =>
      if k = k' then (k', v') :: rest else (k, v) :: aset rest k' v'

/-- The persistent store the settlement flows touch. -/
structure Store where
  products : AList Product
  sellers : AList Seller
  orders : AList Order
  txns : List Txn
  nextOrderId : Nat
deriving DecidableEq

/-- One requested item of the CreateOrder body (`{productId, quantity}`). -/
structure ReqItem where
  productId : Nat
  quantity : Int
deriving DecidableEq

/-- CreateOrder request body. -/
structure CreateOrderReq where
  items : List ReqItem
  shippingAddress : String
  paymentMethod : String
  paymentCurrency : Currency
deriving DecidableEq

/-- Failure outcomes of the routes.  `serverError` is the catch-all 500
branch, reached e.g. when a referenced seller document is missing and the JS
dereference of `seller.wallets` throws. -/
inductive ApiErr where
  | notFound
  | insufficientStock
  | forbidden
  | insufficientBalance
  | serverError
deriving DecidableEq

/-- Phase 1 of CreateOrder (`orders.js:21-64`): per requested item, load the
product (404 if absent), check `product.stock < item.quantity` (400 if so),
convert the price, build the line item, accumulate the total, decrement and
save the stock.  A failure returns immediately, keeping the stock decrements
of earlier iterations (the source has no rollback). -/
def itemsLoop (rates : Rates) (payC : Currency) :
    List ReqItem → AList Product → List OrderItem → ℚ →
    AList Product × List OrderItem × ℚ × Option ApiErr
  | [], ps, acc, total => (ps, acc, total, none)
  | it :: rest, ps, acc, total =>
      match alookup ps it.productId with
      | none => (ps, acc, total, some .notFound)
      | some p =>
          if p.stock < it.quantity then
            (ps, acc, total, some .insufficientStock)
          else
            let c := convertPrice rates p.priceAmount p.priceCurrency payC
            let sub := c * (it.quantity : ℚ)
            let oi : OrderItem :=
              ⟨it.productId, p.sellerId, c, payC, it.quantity, sub⟩
            itemsLoop rates payC rest
              (aset ps it.productId { p with stock := p.stock - it.quantity })
              (acc ++ [oi]) (total + sub)

/-- Phase 3 of CreateOrder (`orders.js:90-105`): per line item, append an
`escrow_hold` transaction (status `pending`), then load the seller and apply
the hold to `wallets[paymentCurrency]`.  A missing seller throws after the
transaction append (`seller.wallets` on `null`), ending the loop. -/
def holdLoop (orderId : Nat) (payC : Currency) :
    List OrderItem → AList Seller → List Txn →
    AList Seller × List Txn × Option ApiErr
  | [], ss, ts => (ss, ts, none)
  | it :: rest, ss, ts =>
      let ts' := ts ++ [⟨orderId, it.sellerId, .escrowHold, it.subtotal, payC, .pending⟩]
      match alookup ss it.sellerId with
      | none => (ss, ts', some .serverError)
      | some s =>
          let w := s.wallets.bucket payC
          let s' : Seller := ⟨s.wallets.setBucket payC (w.hold it.subtotal)⟩
          holdLoop orderId payC rest (aset ss it.sellerId s') ts'

/-- `POST /api/orders` (`orders.js:13-118`): run the item loop; on failure the
response is an error but earlier stock updates stay; otherwise persist the
order (`payment.status = processing`, `escrow.status = held`) via
`Order.create` and run the hold loop.  `Order.create` validates the document
against the Order schema; the one constraint the modelled flows can violate
is `items[].quantity min: 1` (cloudinary.js:65-69) — a violation throws a
ValidationError, caught by the route's catch as a 500, with nothing of the
order persisted (the stock updates of the item loop remain).  The schema's
other constraints hold by construction here: `payment.currency` is the
`Currency` enum, required ids and the quantity itself are always set, and
`orderNumber` is filled by the pre-save hook (the `payment.method` enum is
not modelled; the method is an opaque string no claim depends on). -/
def createOrder (rates : Rates) (buyerId : Nat) (req : CreateOrderReq)
    (st : Store) : Store × Except ApiErr Order :=
  let r := itemsLoop rates req.paymentCurrency req.items st.products [] 0
  let st1 : Store := { st with products := r.1 }
  match r.2.2.2 with
  | some e => (st1, .error e)
  | none =>
    if ∀ i ∈ r.2.1, 1 ≤ i.quantity then
      let o : Order :=
        { buyerUserId := buyerId
          items := r.2.1
          shippingAddress := req.shippingAddress
          paymentMethod := req.paymentMethod
          paymentCurrency := req.paymentCurrency
          paymentAmount := r.2.2.1
          paymentStatus := .processing
          escrowStatus := .held
          status := .pending
          deliveryConfirmed := false
          deliveryConfirmedBy := "" }
      let oid := st1.nextOrderId
      let st2 : Store :=
        { st1 with orders := st1.orders ++ [(oid, o)], nextOrderId := oid + 1 }
      let h := holdLoop oid req.paymentCurrency o.items st2.sellers st2.txns
      let st3 : Store := { st2 with sellers := h.1, txns := h.2.1 }
      match h.2.2 with
      | some e => (st3, .error e)
      | none => (st3, .ok o)
    else (st1, .error .serverError)

/-- Release loop of ConfirmDelivery (`orders.js:151-170`): per line item,
append an `escrow_release` transaction (status `completed`), then load the
seller and apply the release to `wallets[order.payment.currency]`. -/
def releaseLoop (orderId : Nat) (payC : Currency) :
    List OrderItem → AList Seller → List Txn →
    AList Seller × List Txn × Option ApiErr
  | [], ss, ts => (ss, ts, none)
  | it :: rest, ss, ts =>
      let ts' := ts ++ [⟨orderId, it.sellerId, .escrowRelease, it.subtotal, payC, .completed⟩]
      match alookup ss it.sellerId with
      | none => (ss, ts', some .serverError)
      | some s =>
          let w := s.wallets.bucket payC
          let s' : Seller := ⟨s.wallets.setBucket payC (w.release it.subtotal)⟩
          releaseLoop orderId payC rest (aset ss it.sellerId s') ts'

/-- `PUT /api/orders/:orderId/confirm-delivery` (`orders.js:123-183`): load
the order (404 if absent), 403 unless the requester is the order's buyer,
mark the order completed/released and save it, then run the release loop.
Note: the source has no guard on the current `escrow.status`; the release
loop runs on every authorized call. -/
def confirmDelivery (orderId userId : Nat) (st : Store) :
    Store × Except ApiErr Order :=
  match alookup st.orders orderId with
  | none => (st, .error .notFound)
  | some o =>
      if o.buyerUserId ≠ userId then (st, .error .forbidden)
      else
        let o' : Order :=
          { o with deliveryConfirmed := true
                   deliveryConfirmedBy := "buyer"
                   status := .completed
                   escrowStatus := .released }
        let st1 : Store := { st with orders := aset st.orders orderId o' }
        let r := releaseLoop orderId o'.paymentCurrency o'.items st1.sellers st1.txns
        let st2 : Store := { st1 with sellers := r.1, txns := r.2.1 }
        match r.2.2 with
        | some e => (st2, .error e)
        | none => (st2, .ok o')

/-- `POST /api/sellers/:id/payout` (`sellers.js:278-315`): load the seller,
reject with `Insufficient balance` when `wallets[currency].balance < amount`,
otherwise `balance -= amount` and save.  No other validation of `amount` is
performed. -/
def payout (sellerId : Nat) (currency : Currency) (amount : ℚ) (st : Store) :
    Store × Except ApiErr Unit :=
  match alookup st.sellers sellerId with
  | none => (st, .error .serverError)
  | some s =>
      if (s.wallets.bucket currency).balance < amount then
        (st, .error .insufficientBalance)
      else
        let w := s.wallets.bucket currency
        let s' : Seller :=
          ⟨s.wallets.setBucket currency { w with balance := w.balance - amount }⟩
        ({ st with sellers := aset st.sellers sellerId s' }, .ok ())

/-- `wallets[c]` of a stored seller, if the seller exists. -/
def sellerWallet (st : Store) (sid : Nat) (c : Currency) : Option Wallet :=
  (alookup st.sellers sid).map (fun s => s.wallets.bucket c)

/-! ## Concrete scenario states -/

/-- Rate table holding only `USD: 1` (identity conversion for USD orders). -/
def demoRates : Rates := fun c =>
  match c with
  | .USD => some 1
  | _ => none

/-- A freshly created seller: every bucket starts at the schema defaults
`{balance: 0, pendingBalance: 0, totalEarnings: 0}`. -/
def seller0 : Seller :=
  ⟨⟨⟨0, 0, 0⟩, ⟨0, 0, 0⟩, ⟨0, 0, 0⟩, ⟨0, 0, 0⟩⟩⟩

/-- A product of seller 1: price 10 USD, one unit in stock. -/
def demoProduct : Product :=
  { sellerId := 1, name := "widget", priceAmount := 10,
    priceCurrency := .USD, stock := 1 }

/-- Store with that one product and that one seller. -/
def demoStore : Store :=
  { products := [(1, demoProduct)], sellers := [(1, seller0)],
    orders := [], txns := [], nextOrderId := 0 }

/-- Buyer 7 orders one unit of product 1, paying in USD. -/
def demoReq : CreateOrderReq :=
  { items := [⟨1, 1⟩], shippingAddress := "addr", paymentMethod := "card",
    paymentCurrency := .USD }

theorem alookup_mem {α : Type} (l : AList α) (k : Nat) (v : α)
    (h : alookup l k = some v) : (k, v) ∈ l := by
  induction l with
  | nil => simp [alookup] at h
  | cons hd rest ih =>
      obtain ⟨k', v'⟩ := hd
      simp only [alookup] at h
      split at h
      · next hk =>
          rcases Option.some.inj h with rfl
          rcases hk with rfl
          exact List.mem_cons_self _ _
      · exact List.mem_cons_of_mem _ (ih h)

theorem mem_aset {α : Type} (l : AList α) (k : Nat) (v : α) (p : Nat × α)
    (h : p ∈ aset l k v) : p = (k, v) ∨ p ∈ l := by
  induction l with
  | nil => simp [aset] at h
  | cons hd rest ih =>
      obtain ⟨k', v'⟩ := hd
      simp only [aset] at h
      by_cases hk : k' = k
      · rw [if_pos hk] at h
        rcases List.mem_cons.mp h with h | h
        · exact Or.inl h
        · exact Or.inr (List.mem_cons_of_mem _ h)
      · rw [if_neg hk] at h
        rcases List.mem_cons.mp h with h | h
        · exact Or.inr (h ▸ List.mem_cons_self _ _)
        · rcases ih h with h | h
          · exact Or.inl h
          · exact Or.inr (List.mem_cons_of_mem _ h)

theorem alookup_aset {α : Type} (l : AList α) (k : Nat) (v w : α)
    (h : alookup l k = some w) : alookup (aset l k v) k = some v := by
  induction l with
  | nil => simp [alookup] at h
  | cons hd rest ih =>
      obtain ⟨k', v'⟩ := hd
      simp only [alookup] at h
      by_cases hk : k' = k
      · subst hk
        simp [aset, alookup]
      · rw [if_neg hk] at h
        simp only [aset]
        rw [if_neg hk]
        simp only [alookup]
        rw [if_neg hk]
        exact ih h

/-! ## The order-total accumulator -/

/-- Sum of the line-item subtotals of an order. -/
def sumSub (l : List OrderItem) : ℚ := (l.map OrderItem.subtotal).sum

/-- The running `total` of the CreateOrder item loop always equals the sum of
the subtotals of the line items built so far (stated as a difference
invariant over the accumulators). -/
theorem itemsLoop_total (rates : Rates) (payC : Currency) (l : List ReqItem) :
    ∀ (ps : AList Product) (acc : List OrderItem) (t : ℚ),
      (itemsLoop rates payC l ps acc t).2.2.1
          - sumSub (itemsLoop rates payC l ps acc t).2.1
        = t - sumSub acc := by
  induction l with
  | nil => intro ps acc t; simp [itemsLoop]
  | cons it rest ih =>
      intro ps acc t
      simp only [itemsLoop]
      cases halo : alookup ps it.productId with
      | none => simp
      | some p =>
          by_cases hs : p.stock < it.quantity
          · simp [hs]
          · simp only [hs, if_false]
            rw [ih]
            simp [sumSub]

/-! ## Claims -/

/-- C3: conservation of held funds.  The escrow-hold update of CreateOrder
(`orders.js:103`, embedded as `Wallet.hold` and used by `holdLoop`) followed by
the escrow-release update of ConfirmDelivery (`orders.js:166-168`, embedded as
`Wallet.release` and used by `releaseLoop`), both with the same amount `x`,
leaves `pendingBalance` at its initial value and increases `balance` and
`totalEarnings` each by exactly `x`. -/
theorem c3_hold_release_conservation (w : Wallet) (x : ℚ) :
    ((w.hold x).release x).pendingBalance = w.pendingBalance ∧
    ((w.hold x).release x).balance = w.balance + x ∧
    ((w.hold x).release x).totalEarnings = w.totalEarnings + x := by
  refine ⟨?_, rfl, rfl⟩
  simp [Wallet.hold, Wallet.release]

/-- Store with only seller 1, whose wallets are all zero. -/
def payoutStore : Store :=
  { products := [], sellers := [(1, seller0)], orders := [], txns := [],
    nextOrderId := 0 }

/-- C5: the claim that every wallet operation rejects a negative amount FAILS
on the code: a payout request of amount `-5` against a zero balance passes the
only check the route performs (`balance < amount`, i.e. `0 < -5` is false), so
the request succeeds and the wallet changes: `balance` becomes `0 - (-5) = 5`. -/
theorem c5_negative_payout_accepted :
    (payout 1 .USD (-5) payoutStore).2 = .ok () ∧
    sellerWallet (payout 1 .USD (-5) payoutStore).1 1 .USD = some ⟨5, 0, 0⟩ ∧
    sellerWallet (payout 1 .USD (-5) payoutStore).1 1 .USD
      ≠ sellerWallet payoutStore 1 .USD := by
  refine ⟨?_, ?_, ?_⟩
  · with_unfolding_all rfl
  · with_unfolding_all rfl
  · intro h
    rw [show sellerWallet (payout 1 .USD (-5) payoutStore).1 1 .USD = some ⟨5, 0, 0⟩ from
          by with_unfolding_all rfl,
        show sellerWallet payoutStore 1 .USD = some ⟨0, 0, 0⟩ from
          by with_unfolding_all rfl] at h
    simp only [Option.some.injEq, Wallet.mk.injEq] at h
    norm_num at h

/-- The claimed per-order invariant: the sum of the line-item subtotals equals
`payment.amount` within the rounding tolerance of `0.01`. -/
def orderAmountOk (o : Order) : Prop :=
  |sumSub o.items - o.paymentAmount| ≤ 1 / 100

/-- Every persisted order satisfies `orderAmountOk`. -/
def storeOrdersOk (st : Store) : Prop :=
  ∀ p ∈ st.orders, orderAmountOk (Prod.snd p)

/-- C4: if every order persisted so far satisfies
`|sum(items[].subtotal) - payment.amount| ≤ 0.01`, the invariant still holds
after any `createOrder` (the new order is persisted with
`payment.amount` equal to the accumulated total, which is exactly the sum of
its subtotals) and after any `confirmDelivery` (which rewrites only status
fields, never `items` or `payment.amount`). -/
theorem c4_subtotal_sum_matches_payment (st : Store) (h : storeOrdersOk st) :
    (∀ (rates : Rates) (buyerId : Nat) (req : CreateOrderReq),
        storeOrdersOk (createOrder rates buyerId req st).1) ∧
    (∀ (orderId userId : Nat),
        storeOrdersOk (confirmDelivery orderId userId st).1) := by
  constructor
  · intro rates buyerId req
    simp only [createOrder]
    split
    · exact h
    · split
      · split
        all_goals
          intro p hp
          simp only [List.mem_append, List.mem_singleton] at hp
          rcases hp with hp | hp
          · exact h p hp
          · subst hp
            simp only [orderAmountOk, sumSub]
            have htot := itemsLoop_total rates req.paymentCurrency req.items
              st.products [] 0
            simp only [sumSub, List.map_nil, List.sum_nil] at htot
            rw [abs_sub_comm, htot]
            norm_num
      · exact h
  · intro orderId userId
    cases ho : alookup st.orders orderId with
    | none =>
        simp only [confirmDelivery, ho]
        exact h
    | some o =>
        by_cases hb : o.buyerUserId ≠ userId
        · simp only [confirmDelivery, ho, if_pos hb]
          exact h
        · have horders : (confirmDelivery orderId userId st).1.orders
              = aset st.orders orderId
                  { o with deliveryConfirmed := true,
                           deliveryConfirmedBy := "buyer",
                           status := .completed,
                           escrowStatus := .released } := by
            simp only [confirmDelivery, ho, if_neg hb]
            split <;> rfl
          intro p hp
          rw [horders] at hp
          rcases mem_aset _ _ _ _ hp with hp | hp
          · subst hp
            have mem := alookup_mem _ _ _ ho
            have hok := h _ mem
            exact hok
          · exact h p hp

/-- Witness for C4: the scenario store has no orders, so its invariant holds
vacuously, and after creating the demo order the invariant still holds. -/
theorem c4_witness :
    storeOrdersOk (createOrder demoRates 7 demoReq demoStore).1 :=
  (c4_subtotal_sum_matches_payment demoStore
    (by intro p hp; simp [demoStore] at hp)).1 demoRates 7 demoReq

/-- C6: a single-item CreateOrder whose product exists but has
`stock < quantity` is rejected with `InsufficientStock` and the store is
returned unchanged: stock untouched, no order, no transaction, no wallet
update. -/
theorem c6_insufficient_stock_rejected (rates : Rates) (buyerId : Nat)
    (st : Store) (pid : Nat) (q : Int) (sa pm : String) (pc : Currency)
    (p : Product) (hp : alookup st.products pid = some p)
    (hs : p.stock < q) :
    createOrder rates buyerId ⟨[⟨pid, q⟩], sa, pm, pc⟩ st
      = (st, .error .insufficientStock) := by
  simp [createOrder, itemsLoop, hp, hs]

/-- Product 1: two units in stock, price 10 USD (spec scenario 2). -/
def lowStockProduct : Product :=
  { sellerId := 1, name := "w", priceAmount := 10, priceCurrency := .USD,
    stock := 2 }

/-- Store for scenario 2. -/
def lowStockStore : Store :=
  { products := [(1, lowStockProduct)], sellers := [(1, seller0)],
    orders := [], txns := [], nextOrderId := 0 }

/-- Witness for C6: ordering 5 units of a 2-unit product fails with
`InsufficientStock` and leaves the store untouched. -/
theorem c6_witness :
    createOrder demoRates 7 ⟨[⟨1, 5⟩], "a", "card", .USD⟩ lowStockStore
      = (lowStockStore, .error .insufficientStock) :=
  c6_insufficient_stock_rejected demoRates 7 lowStockStore 1 5 "a" "card"
    .USD lowStockProduct (by simp [lowStockStore, lowStockProduct, alookup])
    (by norm_num [lowStockProduct])

/-- C7: a ConfirmDelivery request by a user who is not the order's buyer is
rejected with `Forbidden` and the store is returned unchanged: no order, no
wallet and no transaction is modified. -/
theorem c7_forbidden_rejected (st : Store) (orderId userId : Nat) (o : Order)
    (ho : alookup st.orders orderId = some o)
    (hb : o.buyerUserId ≠ userId) :
    confirmDelivery orderId userId st = (st, .error .forbidden) := by
  simp [confirmDelivery, ho, hb]

/-- An escrow-held order whose buyer is user 7. -/
def heldOrder : Order :=
  { buyerUserId := 7, items := [], shippingAddress := "a",
    paymentMethod := "card", paymentCurrency := .USD, paymentAmount := 0,
    paymentStatus := .processing, escrowStatus := .held, status := .pending,
    deliveryConfirmed := false, deliveryConfirmedBy := "" }

/-- Store holding only `heldOrder` under id 0. -/
def heldOrderStore : Store :=
  { products := [], sellers := [], orders := [(0, heldOrder)], txns := [],
    nextOrderId := 1 }

/-- Witness for C7: user 8 confirming user 7's order is rejected with
`Forbidden` and the store is unchanged. -/
theorem c7_witness :
    confirmDelivery 0 8 heldOrderStore = (heldOrderStore, .error .forbidden) :=
  c7_forbidden_rejected heldOrderStore 0 8 heldOrder
    (by simp [heldOrderStore, alookup]) (by norm_num [heldOrder])

/-- The rate table of spec scenario 5: `{USD: 1, NGN: 1500}`. -/
def scenarioRates : Rates := fun c =>
  match c with
  | .USD => some 1
  | .NGN => some 1500
  | _ => none

/-- C8: `convertPrice` computes `round2(amount / rate[from] * rate[to])`
whenever both currencies carry a (nonzero) rate, and returns the amount
unchanged whenever either currency is absent from the table; with the rate
table `{USD: 1, NGN: 1500}`, `convertPrice 100 USD NGN = 150000`.  (The JS
truthiness test also treats a stored rate of `0` as absent; the formula
conjunct therefore carries nonzero-rate side conditions.) -/
theorem c8_convert_price_formula (rates : Rates) (amount : ℚ) (f t : Currency) :
    (∀ rf rt, rates f = some rf → rf ≠ 0 → rates t = some rt → rt ≠ 0 →
        convertPrice rates amount f t = round2 (amount / rf * rt)) ∧
    (rates f = none ∨ rates t = none → convertPrice rates amount f t = amount) ∧
    convertPrice scenarioRates 100 .USD .NGN = 150000 := by
  refine ⟨?_, ?_, ?_⟩
  · intro rf rt hf hf0 ht ht0
    simp [convertPrice, hf, ht, hf0, ht0]
  · rintro (hf | ht)
    · simp [convertPrice, hf]
    · cases hf : rates f <;> simp [convertPrice, hf, ht]
  · with_unfolding_all rfl

/-- Witness for C8: the formula conjunct at the scenario-5 rate table
(`100 / 1 * 1500`, rounded, i.e. `150000`), and the passthrough conjunct at a
currency with no rate (GBP). -/
theorem c8_witness :
    convertPrice scenarioRates 100 .USD .NGN = round2 (100 / 1 * 1500) ∧
    convertPrice scenarioRates 100 .USD .GBP = 100 :=
  ⟨(c8_convert_price_formula scenarioRates 100 .USD .NGN).1 1 1500 rfl
      (by norm_num) rfl (by norm_num),
   (c8_convert_price_formula scenarioRates 100 .USD .GBP).2.1 (Or.inr rfl)⟩

/-- Two-decimal rounding moves a value by at most `0.005`. -/
theorem round2_err (x : ℚ) : |round2 x - x| ≤ 1 / 200 := by
  rw [abs_le]
  unfold round2
  constructor
  · have h := Int.lt_floor_add_one (x * 100 + 1 / 2)
    push_cast at h
    linarith
  · have h := Int.floor_le (x * 100 + 1 / 2)
    linarith

/-- C9: round-trip conversion error bound.  For currencies `A`, `B` with
positive rates `rA`, `rB` in the table, converting `a` from `A` to `B` and
back differs from `a` by at most the two rounding errors introduced, i.e. by
at most `0.005` (second rounding) plus `0.005 · rA/rB` (first rounding,
scaled by the back conversion). -/
theorem c9_roundtrip_error_bound (rates : Rates) (a : ℚ) (A B : Currency)
    (rA rB : ℚ) (hA : rates A = some rA) (hApos : 0 < rA)
    (hB : rates B = some rB) (hBpos : 0 < rB) :
    |convertPrice rates (convertPrice rates a A B) B A - a|
      ≤ 1 / 200 * (1 + rA / rB) := by
  have hA0 : rA ≠ 0 := ne_of_gt hApos
  have hB0 : rB ≠ 0 := ne_of_gt hBpos
  have e1 : convertPrice rates a A B = round2 (a / rA * rB) := by
    simp [convertPrice, hA, hB, hA0, hB0]
  have e2 : convertPrice rates (round2 (a / rA * rB)) B A
      = round2 (round2 (a / rA * rB) / rB * rA) := by
    simp [convertPrice, hA, hB, hA0, hB0]
  rw [e1, e2]
  set u := a / rA * rB with hu
  set c1 := round2 u with hc1
  have key : c1 / rB * rA - a = (c1 - u) * (rA / rB) := by
    rw [hu]
    field_simp
    ring
  have h1 := round2_err u
  have h2 := round2_err (c1 / rB * rA)
  have hpos : (0 : ℚ) < rA / rB := div_pos hApos hBpos
  have expand : round2 (c1 / rB * rA) - a
      = (round2 (c1 / rB * rA) - c1 / rB * rA) + (c1 - u) * (rA / rB) := by
    rw [← key]
    ring
  rw [expand]
  calc |(round2 (c1 / rB * rA) - c1 / rB * rA) + (c1 - u) * (rA / rB)|
      ≤ |round2 (c1 / rB * rA) - c1 / rB * rA| + |(c1 - u) * (rA / rB)| :=
        abs_add _ _
    _ = |round2 (c1 / rB * rA) - c1 / rB * rA| + |c1 - u| * (rA / rB) := by
        rw [abs_mul, abs_of_pos hpos]
    _ ≤ 1 / 200 + 1 / 200 * (rA / rB) := by
        have hm := mul_le_mul_of_nonneg_right h1 (le_of_lt hpos)
        linarith
    _ = 1 / 200 * (1 + rA / rB) := by ring

/-- Witness for C9: with the scenario-5 table, `100 USD → NGN → USD` lands
within the bound (in fact it returns exactly 100). -/
theorem c9_witness :
    |convertPrice scenarioRates (convertPrice scenarioRates 100 .USD .NGN)
        .NGN .USD - 100|
      ≤ 1 / 200 * (1 + 1 / 1500) :=
  c9_roundtrip_error_bound scenarioRates 100 .USD .NGN 1 1500 rfl
    (by norm_num) rfl (by norm_num)

/-- Product 1 with three units in stock, price 10 USD. -/
def negQtyProduct : Product :=
  { sellerId := 1, name := "w", priceAmount := 10, priceCurrency := .USD,
    stock := 3 }

/-- Store for the negative-quantity scenario. -/
def negQtyStore : Store :=
  { products := [(1, negQtyProduct)], sellers := [(1, seller0)],
    orders := [], txns := [], nextOrderId := 0 }

/-- C10, as stated, is false: a negative quantity never contributes a
negative subtotal to a persisted order's total, because `Order.create` runs
the Order schema's `items[].quantity min: 1` validation (cloudinary.js:65-69)
and throws.  Concretely, ordering quantity `-2` of product 1 (stock 3, price
10 USD) creates no order at all — the store's order collection stays empty
and the route answers with the catch-all 500. -/
theorem c10_counterexample :
    (createOrder demoRates 7 ⟨[⟨1, -2⟩], "a", "card", .USD⟩
        negQtyStore).1.orders = [] ∧
    (createOrder demoRates 7 ⟨[⟨1, -2⟩], "a", "card", .USD⟩ negQtyStore).2
      = .error .serverError := by
  constructor <;> with_unfolding_all rfl

/-- C10 (amended): the CreateOrder route code itself never validates that a
quantity is positive — for an existing product with `0 ≤ stock` and a
requested quantity `q ≤ 0` the insufficient-stock check `product.stock < q`
passes and the product is persisted with `stock - q`, an increase when
`q < 0` — but `Order.create` then fails the Order schema's
`items[].quantity min: 1` validation, so the request errors (500) and no
order, transaction or wallet update is persisted. -/
theorem c10_quantity_validation_rejects (rates : Rates) (buyerId : Nat)
    (st : Store) (pid : Nat) (q : Int) (sa pm : String) (pc : Currency)
    (p : Product) (hp : alookup st.products pid = some p)
    (hstock : 0 ≤ p.stock) (hq : q ≤ 0) :
    (createOrder rates buyerId ⟨[⟨pid, q⟩], sa, pm, pc⟩ st).2
        = .error .serverError ∧
    alookup (createOrder rates buyerId ⟨[⟨pid, q⟩], sa, pm, pc⟩ st).1.products
        pid
      = some { p with stock := p.stock - q } ∧
    (createOrder rates buyerId ⟨[⟨pid, q⟩], sa, pm, pc⟩ st).1.orders
        = st.orders ∧
    (createOrder rates buyerId ⟨[⟨pid, q⟩], sa, pm, pc⟩ st).1.sellers
        = st.sellers ∧
    (createOrder rates buyerId ⟨[⟨pid, q⟩], sa, pm, pc⟩ st).1.txns
        = st.txns := by
  have hns : ¬ p.stock < q := not_lt.mpr (hq.trans hstock)
  have hred : itemsLoop rates pc [⟨pid, q⟩] st.products [] 0
      = (aset st.products pid { p with stock := p.stock - q },
         [⟨pid, p.sellerId, convertPrice rates p.priceAmount p.priceCurrency pc,
           pc, q,
           convertPrice rates p.priceAmount p.priceCurrency pc * (q : ℚ)⟩],
         0 + convertPrice rates p.priceAmount p.priceCurrency pc * (q : ℚ),
         none) := by
    simp [itemsLoop, hp, hns]
  have hval : ¬ ∀ i ∈
      [(⟨pid, p.sellerId,
          convertPrice rates p.priceAmount p.priceCurrency pc, pc, q,
          convertPrice rates p.priceAmount p.priceCurrency pc * (q : ℚ)⟩
        : OrderItem)], 1 ≤ i.quantity := by
    simp
    omega
  have hgoal : createOrder rates buyerId ⟨[⟨pid, q⟩], sa, pm, pc⟩ st
      = ({ st with
            products := aset st.products pid { p with stock := p.stock - q } },
         .error .serverError) := by
    simp only [createOrder, hred]
    rw [if_neg hval]
  rw [hgoal]
  exact ⟨rfl, alookup_aset _ _ _ _ hp, rfl, rfl, rfl⟩

/-- Witness for the amended C10 at the concrete scenario: quantity `-2` of a
3-unit product corrupts the persisted stock to `3 - (-2) = 5` while the
request errors and orders, sellers and transactions stay unchanged. -/
theorem c10_witness :
    (createOrder demoRates 7 ⟨[⟨1, -2⟩], "a", "card", .USD⟩ negQtyStore).2
        = .error .serverError ∧
    alookup (createOrder demoRates 7 ⟨[⟨1, -2⟩], "a", "card", .USD⟩
          negQtyStore).1.products 1
      = some { negQtyProduct with stock := negQtyProduct.stock - (-2) } ∧
    (createOrder demoRates 7 ⟨[⟨1, -2⟩], "a", "card", .USD⟩
        negQtyStore).1.orders = negQtyStore.orders ∧
    (createOrder demoRates 7 ⟨[⟨1, -2⟩], "a", "card", .USD⟩
        negQtyStore).1.sellers = negQtyStore.sellers ∧
    (createOrder demoRates 7 ⟨[⟨1, -2⟩], "a", "card", .USD⟩
        negQtyStore).1.txns = negQtyStore.txns :=
  c10_quantity_validation_rejects demoRates 7 negQtyStore 1 (-2) "a" "card"
    .USD negQtyProduct (by simp [negQtyStore, alookup])
    (by norm_num [negQtyProduct]) (by norm_num)

end Supamart


